import Mathlib

/-!
Verification of the business rules engine of the movimiento-stock repository.

The definitions below are a shallow embedding of `backend/business_rules.py`,
`backend/config.py` and the pydantic models of `backend/models.py`.
Product names are Lean strings; Python `in` on strings becomes `strContains`;
Python `str.lower()` becomes a character map covering ASCII letters plus the
Spanish accented letters that occur in the catalog and in the rules; Python
`str.strip()` becomes `String.trim`; Python integers become `Int`, and the
floor division `//` becomes `Int.fdiv`.
-/

namespace MovimientoStock

/-- The `DeliveryNoteItem` pydantic model of `backend/models.py`:
product name, integer quantity, optional mapped form value, and the
flag marking items synthesized by the rules engine. -/
structure DeliveryNoteItem where
  product : String
  quantity : Int
  form_value : Option String
  is_auto_added : Bool
deriving DecidableEq

/-- The `ParsedDeliveryNote` pydantic model of `backend/models.py`:
item list plus four optional passthrough metadata fields. -/
structure ParsedDeliveryNote where
  items : List DeliveryNoteItem
  raw_text : Option String
  client_name : Option String
  remito_number : Option String
  fecha : Option String
deriving DecidableEq

/-- Check that `haystack` starts with `needle`, on character lists. -/
def matchesAt : List Char → List Char → Bool
  | [], _ => true
  | _ :: _, [] => false
  | n :: ns, h :: hs => (n = h) && matchesAt ns hs

/-- Check that `needle` occurs contiguously in `haystack`, on character lists. -/
def containsSeq (needle : List Char) : List Char → Bool
  | [] => matchesAt needle []
  | h :: hs => matchesAt needle (h :: hs) || containsSeq needle hs

/-- Python `needle in haystack` on strings: contiguous substring test. -/
def strContains (haystack needle : String) : Bool :=
  containsSeq needle.data haystack.data

/-- Python `str.lower()` restricted to the characters this program handles:
ASCII letters plus the uppercase Spanish accented letters. Every string in
the catalog, the rules and the scenarios is covered by this case map. -/
def pyCharLower (c : Char) : Char :=
  if c = 'Á' then 'á'
  else if c = 'É' then 'é'
  else if c = 'Í' then 'í'
  else if c = 'Ó' then 'ó'
  else if c = 'Ú' then 'ú'
  else if c = 'Ñ' then 'ñ'
  else if c = 'Ü' then 'ü'
  else c.toLower

/-- Python whitespace stripped by `str.strip()` with no argument, restricted
to the ASCII whitespace characters. -/
def isPySpace (c : Char) : Bool :=
  c = ' ' || c = '\t' || c = '\n' || c = '\r' || c = '\x0b' || c = '\x0c'

/-- Python `str.strip()`: drop whitespace from both ends, on character lists. -/
def trimChars (l : List Char) : List Char :=
  ((l.dropWhile isPySpace).reverse.dropWhile isPySpace).reverse

/-- Lines 17-19 of `business_rules.py`: `name.lower().strip()`. -/
def normalize_product_name (name : String) : String :=
  ⟨trimChars (name.data.map pyCharLower)⟩

/-- The `PRODUCT_MAPPING` dict of `backend/config.py`, as an ordered
association list (Python dicts preserve insertion order). -/
def PRODUCT_MAPPING : List (String × String) := [
  ("equipo lago", "EQUIPO | cooler | LAGO"),
  ("equipo rio", "EQUIPO | cooler | RIO"),
  ("romi plus", "EQUIPO | purificador | Romi Plus"),
  ("tanque hidroneumatico", "EQUIPO | tanque | Tanque Hidro. 4G"),
  ("tanque hidroneumático", "EQUIPO | tanque | Tanque Hidro. 4G"),
  ("tubo de co2 2.5", "CO2 | tubo | Tubo de co2 de 2,5 Kg"),
  ("tubo de co2 2,5", "CO2 | tubo | Tubo de co2 de 2,5 Kg"),
  ("tubo de co2 3", "CO2 | tubo | Tubo de co2 de 3 Kg"),
  ("tubo de co2 5", "CO2 | tubo | Tubo de co2 de 5 Kg"),
  ("tubo de co2 5kg", "CO2 | tubo | Tubo de co2 de 5 Kg"),
  ("tubos de co2 5kg", "CO2 | tubo | Tubo de co2 de 5 Kg"),
  ("tubo de co2 8", "CO2 | tubo | Tubo de co2 de 8 Kg"),
  ("tubo de co2 10", "CO2 | tubo | Tubo de co2 de 10 Kg"),
  ("regulador zerica", "CO2 | regulador | Zerica"),
  ("regulador talos", "CO2 | regulador | Talos"),
  ("manometro", "CO2 | regulador | Zerica"),
  ("manómetro", "CO2 | regulador | Zerica"),
  ("conector recto 8-6", "CONECTOR | acople rapido | 8-6"),
  ("conector 1/8-8", "CONECTOR | acople rapido | Rosca macho 1/8 - 8"),
  ("llave de paso 6-6", "CONECTOR | llave de paso | 6-6"),
  ("llave de paso 1/4-6", "CONECTOR | llave de paso | 1/4-6"),
  ("bifurcacion y 6-6-6", "CONECTOR | acople rapido - bifurcacion Y | 6-6-6"),
  ("bifurcación y 6-6-6", "CONECTOR | acople rapido - bifurcacion Y | 6-6-6"),
  ("llave de ai", "CONECTOR | llave de paso | 6-6"),
  ("botellas cantaro 500", "ENVASADO | botellas | Cantaro 500"),
  ("botellas cántaro 500", "ENVASADO | botellas | Cantaro 500"),
  ("tapas cantaro plateadas", "ENVASADO | tapas | Tapas Cantaro Plateadas"),
  ("tapas cántaro plateadas", "ENVASADO | tapas | Tapas Cantaro Plateadas"),
  ("tapas cantaro negras", "ENVASADO | tapas | Tapas Cantaro Negras"),
  ("tapas cántaro negras", "ENVASADO | tapas | Tapas Cantaro Negras"),
  ("bandeja de goteo", "EQUIPO | cooler | Bandeja metalica LAGO"),
  ("cable interlock", "INSUMO | cooler | Cable interlock 220 volt"),
  ("cable interlock 220v", "INSUMO | cooler | Cable interlock 220 volt"),
  ("protector de tension", "INSUMO | cooler | Protector de tension"),
  ("protector de tensión", "INSUMO | cooler | Protector de tension"),
  ("cepillo de limpieza", "REPUESTOS | limpieza | Cepillos botellas"),
  ("cepillo limpieza", "REPUESTOS | limpieza | Cepillos botellas"),
  ("fuente", "REPUESTOS | purificador | Fuente de 220 a 24 volt")]

/-- The `for key, value in PRODUCT_MAPPING.items()` loop of
`map_to_form_value` (lines 27-29): first entry whose key is contained in
the normalized name wins. -/
def lookupMapping (normalized : String) : List (String × String) → Option String
  | [] => none
  | (key, value) :: rest =>
    if strContains normalized key then some value else lookupMapping normalized rest

/-- Lines 22-32 of `business_rules.py`: map a product name to its form
dropdown value, returning the original name when no catalog key matches. -/
def map_to_form_value (product_name : String) : String :=
  match lookupMapping (normalize_product_name product_name) PRODUCT_MAPPING with
  | some v => v
  | none => product_name

/-- Line 51 of `business_rules.py`: `item.form_value = map_to_form_value(item.product)`. -/
def assignForm (it : DeliveryNoteItem) : DeliveryNoteItem :=
  { it with form_value := some (map_to_form_value it.product) }

/-- Line 53: `"equipo lago" in normalized or "lago" in normalized`. -/
def predLago (product : String) : Bool :=
  let n := normalize_product_name product
  strContains n "equipo lago" || strContains n "lago"

/-- Line 55: `"equipo rio" in normalized or "rio" in normalized and
"purificador" not in normalized`. Python `and` binds tighter than `or`,
so the `purificador` exclusion only applies to the bare `rio` test. -/
def predRio (product : String) : Bool :=
  let n := normalize_product_name product
  strContains n "equipo rio" || (strContains n "rio" && !strContains n "purificador")

/-- Line 57: `"romi plus" in normalized or "romi" in normalized`. -/
def predRomi (product : String) : Bool :=
  let n := normalize_product_name product
  strContains n "romi plus" || strContains n "romi"

/-- Line 59: `"tanque" in normalized and ("hidro" in normalized or ...)`. -/
def predTanque (product : String) : Bool :=
  let n := normalize_product_name product
  strContains n "tanque" &&
    (strContains n "hidro" || strContains n "hidroneumático" || strContains n "hidroneumatico")

/-- Line 61: `"tubo" in normalized and "co2" in normalized`. -/
def predTubo (product : String) : Bool :=
  let n := normalize_product_name product
  strContains n "tubo" && strContains n "co2"

/-- Line 63: `"regulador" in normalized or "manómetro" in normalized or
"manometro" in normalized`. -/
def predReg (product : String) : Bool :=
  let n := normalize_product_name product
  strContains n "regulador" || strContains n "manómetro" || strContains n "manometro"

/-- Line 65: `"botellas" in normalized and "cantaro" in normalized and
"500" in normalized`. -/
def predCantaro (product : String) : Bool :=
  let n := normalize_product_name product
  strContains n "botellas" && strContains n "cantaro" && strContains n "500"

/-- The mutable flags accumulated by the detection loop of
`apply_business_rules` (lines 40-66). -/
structure DetectedFlags where
  has_equipo_lago : Bool
  has_equipo_rio : Bool
  has_romi_plus : Bool
  has_tanque_hidro : Bool
  has_tubo_co2 : Bool
  has_regulator : Bool
  cantaro_500_qty : Int
deriving DecidableEq

/-- One iteration of the detection loop (lines 49-66): each flag is set when
its trigger matches, and `cantaro_500_qty` is overwritten by the quantity of
a matching item (so the last match wins). -/
def detectStep (f : DetectedFlags) (item : DeliveryNoteItem) : DetectedFlags :=
  { has_equipo_lago := f.has_equipo_lago || predLago item.product
    has_equipo_rio := f.has_equipo_rio || predRio item.product
    has_romi_plus := f.has_romi_plus || predRomi item.product
    has_tanque_hidro := f.has_tanque_hidro || predTanque item.product
    has_tubo_co2 := f.has_tubo_co2 || predTubo item.product
    has_regulator := f.has_regulator || predReg item.product
    cantaro_500_qty := if predCantaro item.product then item.quantity else f.cantaro_500_qty }

/-- The flag initialization of lines 40-46. -/
def initialFlags : DetectedFlags :=
  ⟨false, false, false, false, false, false, 0⟩

/-- The whole detection loop: fold `detectStep` over the item list. -/
def detect (items : List DeliveryNoteItem) : DetectedFlags :=
  items.foldl detectStep initialFlags

/-- Python `any(p(i.product) for i in items)` as used by the rule guards. -/
def anyProduct (p : String → Bool) (items : List DeliveryNoteItem) : Bool :=
  items.any fun it => p it.product

/-- Guard of rule 1 (line 70): `"cable interlock" in normalize_product_name(i.product)`. -/
def guardCable (product : String) : Bool :=
  strContains (normalize_product_name product) "cable interlock"

/-- Guard of rule 2a (line 80): `"conector" in normalized and "8-6" in i.product`. -/
def guardConector86 (product : String) : Bool :=
  strContains (normalize_product_name product) "conector" && strContains product "8-6"

/-- Guard of rule 2b (line 87): `"llave" in normalized and "6-6" in i.product`. -/
def guardLlave66 (product : String) : Bool :=
  strContains (normalize_product_name product) "llave" && strContains product "6-6"

/-- Guard of rule 3a (line 97): `"bifurcacion" in normalized or "bifurcación" in normalized`. -/
def guardBifurcacion (product : String) : Bool :=
  strContains (normalize_product_name product) "bifurcacion" ||
    strContains (normalize_product_name product) "bifurcación"

/-- Guard of rule 3b (line 104): `"llave" in normalized and "1/4" in i.product`. -/
def guardLlave14 (product : String) : Bool :=
  strContains (normalize_product_name product) "llave" && strContains product "1/4"

/-- Guard of rule 5 (line 136): `"1/8" in i.product` on the raw name. -/
def guardOneEighth (product : String) : Bool :=
  strContains product "1/8"

/-- Guard of rule 6 (line 148): `"bandeja" in normalize_product_name(i.product)`. -/
def guardBandeja (product : String) : Bool :=
  strContains (normalize_product_name product) "bandeja"

/-- Guard of rule 7 (line 162): `"plateada" in normalize_product_name(i.product)`. -/
def guardPlateada (product : String) : Bool :=
  strContains (normalize_product_name product) "plateada"

/-- Guard of rule 7 (line 163): `"negra" in normalize_product_name(i.product)`. -/
def guardNegra (product : String) : Bool :=
  strContains (normalize_product_name product) "negra"

/-- Item appended by rule 1 (lines 71-76). -/
def cableInterlockItem : DeliveryNoteItem :=
  ⟨"Cable Interlock 220V", 1, some "INSUMO | cooler | Cable interlock 220 volt", true⟩

/-- Item appended by rule 2a (lines 81-86). -/
def conectorRecto86Item : DeliveryNoteItem :=
  ⟨"Conector Recto 8-6", 1, some "CONECTOR | acople rapido | 8-6", true⟩

/-- Item appended by rule 2b (lines 88-93). -/
def llave66Item : DeliveryNoteItem :=
  ⟨"Llave de paso 6-6", 1, some "CONECTOR | llave de paso | 6-6", true⟩

/-- Item appended by rule 3a (lines 98-103). -/
def bifurcacionItem : DeliveryNoteItem :=
  ⟨"Bifurcación Y 6-6-6", 1, some "CONECTOR | acople rapido - bifurcacion Y | 6-6-6", true⟩

/-- Item appended by rule 3b (lines 105-110). -/
def llave14Item : DeliveryNoteItem :=
  ⟨"Llave de paso 1/4-6", 1, some "CONECTOR | llave de paso | 1/4-6", true⟩

/-- Regulator appended by rule 4 when `has_equipo_lago` (lines 115-117). -/
def reguladorZericaItem : DeliveryNoteItem :=
  ⟨"Regulador ZERICA", 1, some "CO2 | regulador | Zerica", true⟩

/-- Regulator appended by rule 4 when `has_equipo_rio` (lines 118-120). -/
def reguladorTalosItem : DeliveryNoteItem :=
  ⟨"Regulador TALOS", 1, some "CO2 | regulador | Talos", true⟩

/-- Regulator appended by rule 4 in the default branch (lines 121-124). -/
def reguladorDefaultItem : DeliveryNoteItem :=
  ⟨"Regulador/Manómetro", 1, some "CO2 | regulador | Zerica", true⟩

/-- Item appended by rule 5 (lines 137-142). -/
def conector18Item : DeliveryNoteItem :=
  ⟨"Conector 1/8-8", 1, some "CONECTOR | acople rapido | Rosca macho 1/8 - 8", true⟩

/-- Item appended by rule 6 (lines 149-154). -/
def bandejaItem : DeliveryNoteItem :=
  ⟨"Bandeja de Goteo (incluida con Lago)", 1, some "EQUIPO | cooler | Bandeja metalica LAGO", true⟩

/-- Silver caps appended by rule 7 (lines 166-171); the quantity is `qty // 2`. -/
def tapasPlateadasItem (q : Int) : DeliveryNoteItem :=
  ⟨"Tapas Cántaro Plateadas", q, some "ENVASADO | tapas | Tapas Cantaro Plateadas", true⟩

/-- Black caps appended by rule 7 (lines 173-178); the quantity is the remainder. -/
def tapasNegrasItem (q : Int) : DeliveryNoteItem :=
  ⟨"Tapas Cántaro Negras", q, some "ENVASADO | tapas | Tapas Cantaro Negras", true⟩

/-- Rule 1 (lines 68-76): Equipo Lago/Rio adds the interlock cable. -/
def rule1 (f : DetectedFlags) (items : List DeliveryNoteItem) : List DeliveryNoteItem :=
  if (f.has_equipo_lago || f.has_equipo_rio) && !anyProduct guardCable items then
    [cableInterlockItem]
  else []

/-- Rule 2 (lines 78-93): Romi Plus adds the straight connector and the 6-6 valve. -/
def rule2 (f : DetectedFlags) (items : List DeliveryNoteItem) : List DeliveryNoteItem :=
  (if f.has_romi_plus && !anyProduct guardConector86 items then [conectorRecto86Item] else []) ++
  (if f.has_romi_plus && !anyProduct guardLlave66 items then [llave66Item] else [])

/-- Rule 3 (lines 95-110): hydropneumatic tank adds the Y split and the 1/4-6 valve. -/
def rule3 (f : DetectedFlags) (items : List DeliveryNoteItem) : List DeliveryNoteItem :=
  (if f.has_tanque_hidro && !anyProduct guardBifurcacion items then [bifurcacionItem] else []) ++
  (if f.has_tanque_hidro && !anyProduct guardLlave14 items then [llave14Item] else [])

/-- Rule 4 (lines 112-132): a CO2 tube without a regulator adds a
brand-chosen regulator and sets the working `has_regulator` flag, returned
as the second component. -/
def rule4 (f : DetectedFlags) : List DeliveryNoteItem × Bool :=
  if f.has_tubo_co2 && !f.has_regulator then
    if f.has_equipo_lago then ([reguladorZericaItem], true)
    else if f.has_equipo_rio then ([reguladorTalosItem], true)
    else ([reguladorDefaultItem], true)
  else ([], f.has_regulator)

/-- Rule 5 (lines 134-142): any regulator, original or just synthesized by
rule 4, adds the 1/8-8 connector unless some original item or some item
already synthesized in this run carries `1/8`. -/
def rule5 (hasReg : Bool) (items newSoFar : List DeliveryNoteItem) : List DeliveryNoteItem :=
  if hasReg && !anyProduct guardOneEighth items && !anyProduct guardOneEighth newSoFar then
    [conector18Item]
  else []

/-- Rule 6 (lines 144-154): Equipo Lago includes the drip tray. -/
def rule6 (f : DetectedFlags) (items : List DeliveryNoteItem) : List DeliveryNoteItem :=
  if f.has_equipo_lago && !anyProduct guardBandeja items then [bandejaItem] else []

/-- Rule 7 (lines 156-178): any positive Cántaro-500 quantity is split into
silver caps (`q // 2`) and black caps (`q - q // 2`), each added only when
no existing item already matches its color guard. -/
def rule7 (q : Int) (items : List DeliveryNoteItem) : List DeliveryNoteItem :=
  if 0 < q then
    (if !anyProduct guardPlateada items then [tapasPlateadasItem (q.fdiv 2)] else []) ++
    (if !anyProduct guardNegra items then [tapasNegrasItem (q - q.fdiv 2)] else [])
  else []

/-- The `new_items` list built by the rule section of `apply_business_rules`
(lines 68-178), in rule-evaluation order. Rule 5 sees the items synthesized
by rules 1-4, matching the `new_items` contents at line 136. -/
def synthesize (f : DetectedFlags) (items : List DeliveryNoteItem) : List DeliveryNoteItem :=
  let r123 := rule1 f items ++ rule2 f items ++ rule3 f items
  let r4 := rule4 f
  let r5 := rule5 r4.2 items (r123 ++ r4.1)
  r123 ++ r4.1 ++ r5 ++ rule6 f items ++ rule7 f.cantaro_500_qty items

/-- The return value of `apply_business_rules` (lines 35-189): every
original item receives its form value during the detection pass, the
synthesized items are appended, and the metadata is carried over. -/
def apply_business_rules (parsed_note : ParsedDeliveryNote) : ParsedDeliveryNote :=
  let items := parsed_note.items.map assignForm
  let flags := detect items
  { items := items ++ synthesize flags items
    raw_text := parsed_note.raw_text
    client_name := parsed_note.client_name
    remito_number := parsed_note.remito_number
    fecha := parsed_note.fecha }

/-- State-passing embedding of the call `apply_business_rules(parsed_note)`.
Line 37 (`items = list(parsed_note.items)`) copies the list but shares the
item objects with the caller, and line 51 assigns `item.form_value` on those
shared objects, so after the call the caller observes its note with every
item mapped. The first component is the caller-visible state of the argument
after the call; the second is the returned note. -/
def apply_business_rules_mut (parsed_note : ParsedDeliveryNote) :
    ParsedDeliveryNote × ParsedDeliveryNote :=
  ({ parsed_note with items := parsed_note.items.map assignForm },
    apply_business_rules parsed_note)

/-- The accumulation of `cantaro_500_qty` through the detection loop, pulled
out of `detectStep` so that the loop can be characterized field by field. -/
def cantaroFold (q : Int) (items : List DeliveryNoteItem) : Int :=
  items.foldl (fun acc it => if predCantaro it.product then it.quantity else acc) q

/-- Scenario C of the spec: `[{"EQUIPO RIO", 1}, {"TUBO DE CO2 (5KG)", 2}]`. -/
def noteScenarioC : ParsedDeliveryNote :=
  ⟨[⟨"EQUIPO RIO", 1, none, false⟩, ⟨"TUBO DE CO2 (5KG)", 2, none, false⟩],
    none, none, none, none⟩

/-- Scenario D of the spec: `[{"BOTELLAS CANTARO 500", 7}]`. -/
def noteScenarioD : ParsedDeliveryNote :=
  ⟨[⟨"BOTELLAS CANTARO 500", 7, none, false⟩], none, none, none, none⟩

/-- Scenario E of the spec:
`[{"EQUIPO LAGO",1},{"TUBO DE CO2 (3KG)",1},{"MANOMETRO",1}]`. -/
def noteScenarioE : ParsedDeliveryNote :=
  ⟨[⟨"EQUIPO LAGO", 1, none, false⟩, ⟨"TUBO DE CO2 (3KG)", 1, none, false⟩,
    ⟨"MANOMETRO", 1, none, false⟩], none, none, none, none⟩

/-- A note holding a single Cántaro-500 bottle, for the quantity-zero cap. -/
def noteCantaroOne : ParsedDeliveryNote :=
  ⟨[⟨"BOTELLAS CANTARO 500", 1, none, false⟩], none, none, none, none⟩

/-- A note whose single item name contains both `equipo rio` and `purificador`. -/
def notePurificadorRio : ParsedDeliveryNote :=
  ⟨[⟨"PURIFICADOR EQUIPO RIO", 1, none, false⟩], none, none, none, none⟩

/-- A note with a single Lago cooler line and no form value assigned yet. -/
def noteLagoOnly : ParsedDeliveryNote :=
  ⟨[⟨"EQUIPO LAGO", 1, none, false⟩], none, none, none, none⟩

/-- A note carrying an explicitly handwritten manometer together with Rio
equipment. -/
def noteManometroRio : ParsedDeliveryNote :=
  ⟨[⟨"MANOMETRO", 1, none, false⟩, ⟨"EQUIPO RIO", 1, none, false⟩],
    none, none, none, none⟩

section Lemmas

theorem anyProduct_cons (p : String → Bool) (x : DeliveryNoteItem) (xs : List DeliveryNoteItem) :
    anyProduct p (x :: xs) = (p x.product || anyProduct p xs) := by
  simp [anyProduct]

theorem anyProduct_append (p : String → Bool) (l₁ l₂ : List DeliveryNoteItem) :
    anyProduct p (l₁ ++ l₂) = (anyProduct p l₁ || anyProduct p l₂) := by
  simp [anyProduct]

theorem anyProduct_ite_sing (p : String → Bool) (c : Bool) (x : DeliveryNoteItem) :
    anyProduct p (if c then [x] else []) = (c && p x.product) := by
  cases c <;> simp [anyProduct]

theorem anyProduct_map_assignForm (p : String → Bool) (l : List DeliveryNoteItem) :
    anyProduct p (l.map assignForm) = anyProduct p l := by
  simp only [anyProduct, List.any_map]
  rfl

theorem cantaroFold_cons (q : Int) (x : DeliveryNoteItem) (xs : List DeliveryNoteItem) :
    cantaroFold q (x :: xs) =
      cantaroFold (if predCantaro x.product then x.quantity else q) xs := rfl

theorem cantaroFold_append (q : Int) (l₁ l₂ : List DeliveryNoteItem) :
    cantaroFold q (l₁ ++ l₂) = cantaroFold (cantaroFold q l₁) l₂ := by
  simp [cantaroFold, List.foldl_append]

theorem cantaroFold_of_no_match (l : List DeliveryNoteItem)
    (h : ∀ x ∈ l, predCantaro x.product = false) (q : Int) : cantaroFold q l = q := by
  induction l generalizing q with
  | nil => rfl
  | cons x xs ih =>
    rw [cantaroFold_cons, h x (by simp), ih fun y hy => h y (by simp [hy])]
    simp

theorem cantaroFold_map_assignForm (q : Int) (l : List DeliveryNoteItem) :
    cantaroFold q (l.map assignForm) = cantaroFold q l := by
  induction l generalizing q with
  | nil => rfl
  | cons x xs ih =>
    rw [List.map_cons, cantaroFold_cons, cantaroFold_cons]
    exact ih _

theorem foldl_detectStep (items : List DeliveryNoteItem) (f : DetectedFlags) :
    items.foldl detectStep f =
      ⟨f.has_equipo_lago || anyProduct predLago items,
       f.has_equipo_rio || anyProduct predRio items,
       f.has_romi_plus || anyProduct predRomi items,
       f.has_tanque_hidro || anyProduct predTanque items,
       f.has_tubo_co2 || anyProduct predTubo items,
       f.has_regulator || anyProduct predReg items,
       cantaroFold f.cantaro_500_qty items⟩ := by
  induction items generalizing f with
  | nil => simp [anyProduct, cantaroFold]
  | cons x xs ih =>
    rw [List.foldl_cons, ih]
    simp [detectStep, anyProduct_cons, cantaroFold_cons, Bool.or_assoc]

theorem detect_eq (items : List DeliveryNoteItem) :
    detect items =
      ⟨anyProduct predLago items, anyProduct predRio items, anyProduct predRomi items,
       anyProduct predTanque items, anyProduct predTubo items, anyProduct predReg items,
       cantaroFold 0 items⟩ := by
  rw [detect, foldl_detectStep]
  simp [initialFlags]

theorem detect_map_assignForm (l : List DeliveryNoteItem) :
    detect (l.map assignForm) = detect l := by
  rw [detect_eq, detect_eq]
  simp [anyProduct_map_assignForm, cantaroFold_map_assignForm]

end Lemmas

section LookupLemmas

theorem lookupMapping_append_found (n k v : String) (pre post : List (String × String))
    (hpre : ∀ kv ∈ pre, strContains n kv.1 = false) (hk : strContains n k = true) :
    lookupMapping n (pre ++ (k, v) :: post) = some v := by
  induction pre with
  | nil => simp [lookupMapping, hk]
  | cons a as ih =>
    obtain ⟨k0, v0⟩ := a
    rw [List.cons_append, lookupMapping, hpre (k0, v0) (by simp)]
    exact ih fun kv hkv => hpre kv (by simp [hkv])

theorem lookupMapping_none (n : String) (l : List (String × String))
    (h : ∀ kv ∈ l, strContains n kv.1 = false) : lookupMapping n l = none := by
  induction l with
  | nil => rfl
  | cons a as ih =>
    obtain ⟨k0, v0⟩ := a
    rw [lookupMapping, h (k0, v0) (by simp)]
    exact ih fun kv hkv => h kv (by simp [hkv])

end LookupLemmas

section SynthesisEvaluation

/-!
Closed evaluations of every detection predicate and every rule guard on the
product names of the twelve items the rule section can synthesize. These
feed the characterization of a second run of the engine over its own output.
-/

@[simp] theorem ev_predLago_cable : predLago "Cable Interlock 220V" = false := by decide
@[simp] theorem ev_predLago_con86 : predLago "Conector Recto 8-6" = false := by decide
@[simp] theorem ev_predLago_llave66 : predLago "Llave de paso 6-6" = false := by decide
@[simp] theorem ev_predLago_bifur : predLago "Bifurcación Y 6-6-6" = false := by decide
@[simp] theorem ev_predLago_llave14 : predLago "Llave de paso 1/4-6" = false := by decide
@[simp] theorem ev_predLago_regz : predLago "Regulador ZERICA" = false := by decide
@[simp] theorem ev_predLago_regt : predLago "Regulador TALOS" = false := by decide
@[simp] theorem ev_predLago_regd : predLago "Regulador/Manómetro" = false := by decide
@[simp] theorem ev_predLago_con18 : predLago "Conector 1/8-8" = false := by decide
@[simp] theorem ev_predLago_bandeja : predLago "Bandeja de Goteo (incluida con Lago)" = true := by decide
@[simp] theorem ev_predLago_plat : predLago "Tapas Cántaro Plateadas" = false := by decide
@[simp] theorem ev_predLago_negra : predLago "Tapas Cántaro Negras" = false := by decide
@[simp] theorem ev_predRio_cable : predRio "Cable Interlock 220V" = false := by decide
@[simp] theorem ev_predRio_con86 : predRio "Conector Recto 8-6" = false := by decide
@[simp] theorem ev_predRio_llave66 : predRio "Llave de paso 6-6" = false := by decide
@[simp] theorem ev_predRio_bifur : predRio "Bifurcación Y 6-6-6" = false := by decide
@[simp] theorem ev_predRio_llave14 : predRio "Llave de paso 1/4-6" = false := by decide
@[simp] theorem ev_predRio_regz : predRio "Regulador ZERICA" = false := by decide
@[simp] theorem ev_predRio_regt : predRio "Regulador TALOS" = false := by decide
@[simp] theorem ev_predRio_regd : predRio "Regulador/Manómetro" = false := by decide
@[simp] theorem ev_predRio_con18 : predRio "Conector 1/8-8" = false := by decide
@[simp] theorem ev_predRio_bandeja : predRio "Bandeja de Goteo (incluida con Lago)" = false := by decide
@[simp] theorem ev_predRio_plat : predRio "Tapas Cántaro Plateadas" = false := by decide
@[simp] theorem ev_predRio_negra : predRio "Tapas Cántaro Negras" = false := by decide
@[simp] theorem ev_predRomi_cable : predRomi "Cable Interlock 220V" = false := by decide
@[simp] theorem ev_predRomi_con86 : predRomi "Conector Recto 8-6" = false := by decide
@[simp] theorem ev_predRomi_llave66 : predRomi "Llave de paso 6-6" = false := by decide
@[simp] theorem ev_predRomi_bifur : predRomi "Bifurcación Y 6-6-6" = false := by decide
@[simp] theorem ev_predRomi_llave14 : predRomi "Llave de paso 1/4-6" = false := by decide
@[simp] theorem ev_predRomi_regz : predRomi "Regulador ZERICA" = false := by decide
@[simp] theorem ev_predRomi_regt : predRomi "Regulador TALOS" = false := by decide
@[simp] theorem ev_predRomi_regd : predRomi "Regulador/Manómetro" = false := by decide
@[simp] theorem ev_predRomi_con18 : predRomi "Conector 1/8-8" = false := by decide
@[simp] theorem ev_predRomi_bandeja : predRomi "Bandeja de Goteo (incluida con Lago)" = false := by decide
@[simp] theorem ev_predRomi_plat : predRomi "Tapas Cántaro Plateadas" = false := by decide
@[simp] theorem ev_predRomi_negra : predRomi "Tapas Cántaro Negras" = false := by decide
@[simp] theorem ev_predTanque_cable : predTanque "Cable Interlock 220V" = false := by decide
@[simp] theorem ev_predTanque_con86 : predTanque "Conector Recto 8-6" = false := by decide
@[simp] theorem ev_predTanque_llave66 : predTanque "Llave de paso 6-6" = false := by decide
@[simp] theorem ev_predTanque_bifur : predTanque "Bifurcación Y 6-6-6" = false := by decide
@[simp] theorem ev_predTanque_llave14 : predTanque "Llave de paso 1/4-6" = false := by decide
@[simp] theorem ev_predTanque_regz : predTanque "Regulador ZERICA" = false := by decide
@[simp] theorem ev_predTanque_regt : predTanque "Regulador TALOS" = false := by decide
@[simp] theorem ev_predTanque_regd : predTanque "Regulador/Manómetro" = false := by decide
@[simp] theorem ev_predTanque_con18 : predTanque "Conector 1/8-8" = false := by decide
@[simp] theorem ev_predTanque_bandeja : predTanque "Bandeja de Goteo (incluida con Lago)" = false := by decide
@[simp] theorem ev_predTanque_plat : predTanque "Tapas Cántaro Plateadas" = false := by decide
@[simp] theorem ev_predTanque_negra : predTanque "Tapas Cántaro Negras" = false := by decide
@[simp] theorem ev_predTubo_cable : predTubo "Cable Interlock 220V" = false := by decide
@[simp] theorem ev_predTubo_con86 : predTubo "Conector Recto 8-6" = false := by decide
@[simp] theorem ev_predTubo_llave66 : predTubo "Llave de paso 6-6" = false := by decide
@[simp] theorem ev_predTubo_bifur : predTubo "Bifurcación Y 6-6-6" = false := by decide
@[simp] theorem ev_predTubo_llave14 : predTubo "Llave de paso 1/4-6" = false := by decide
@[simp] theorem ev_predTubo_regz : predTubo "Regulador ZERICA" = false := by decide
@[simp] theorem ev_predTubo_regt : predTubo "Regulador TALOS" = false := by decide
@[simp] theorem ev_predTubo_regd : predTubo "Regulador/Manómetro" = false := by decide
@[simp] theorem ev_predTubo_con18 : predTubo "Conector 1/8-8" = false := by decide
@[simp] theorem ev_predTubo_bandeja : predTubo "Bandeja de Goteo (incluida con Lago)" = false := by decide
@[simp] theorem ev_predTubo_plat : predTubo "Tapas Cántaro Plateadas" = false := by decide
@[simp] theorem ev_predTubo_negra : predTubo "Tapas Cántaro Negras" = false := by decide
@[simp] theorem ev_predReg_cable : predReg "Cable Interlock 220V" = false := by decide
@[simp] theorem ev_predReg_con86 : predReg "Conector Recto 8-6" = false := by decide
@[simp] theorem ev_predReg_llave66 : predReg "Llave de paso 6-6" = false := by decide
@[simp] theorem ev_predReg_bifur : predReg "Bifurcación Y 6-6-6" = false := by decide
@[simp] theorem ev_predReg_llave14 : predReg "Llave de paso 1/4-6" = false := by decide
@[simp] theorem ev_predReg_regz : predReg "Regulador ZERICA" = true := by decide
@[simp] theorem ev_predReg_regt : predReg "Regulador TALOS" = true := by decide
@[simp] theorem ev_predReg_regd : predReg "Regulador/Manómetro" = true := by decide
@[simp] theorem ev_predReg_con18 : predReg "Conector 1/8-8" = false := by decide
@[simp] theorem ev_predReg_bandeja : predReg "Bandeja de Goteo (incluida con Lago)" = false := by decide
@[simp] theorem ev_predReg_plat : predReg "Tapas Cántaro Plateadas" = false := by decide
@[simp] theorem ev_predReg_negra : predReg "Tapas Cántaro Negras" = false := by decide
@[simp] theorem ev_predCantaro_cable : predCantaro "Cable Interlock 220V" = false := by decide
@[simp] theorem ev_predCantaro_con86 : predCantaro "Conector Recto 8-6" = false := by decide
@[simp] theorem ev_predCantaro_llave66 : predCantaro "Llave de paso 6-6" = false := by decide
@[simp] theorem ev_predCantaro_bifur : predCantaro "Bifurcación Y 6-6-6" = false := by decide
@[simp] theorem ev_predCantaro_llave14 : predCantaro "Llave de paso 1/4-6" = false := by decide
@[simp] theorem ev_predCantaro_regz : predCantaro "Regulador ZERICA" = false := by decide
@[simp] theorem ev_predCantaro_regt : predCantaro "Regulador TALOS" = false := by decide
@[simp] theorem ev_predCantaro_regd : predCantaro "Regulador/Manómetro" = false := by decide
@[simp] theorem ev_predCantaro_con18 : predCantaro "Conector 1/8-8" = false := by decide
@[simp] theorem ev_predCantaro_bandeja : predCantaro "Bandeja de Goteo (incluida con Lago)" = false := by decide
@[simp] theorem ev_predCantaro_plat : predCantaro "Tapas Cántaro Plateadas" = false := by decide
@[simp] theorem ev_predCantaro_negra : predCantaro "Tapas Cántaro Negras" = false := by decide
@[simp] theorem ev_guardCable_cable : guardCable "Cable Interlock 220V" = true := by decide
@[simp] theorem ev_guardCable_con86 : guardCable "Conector Recto 8-6" = false := by decide
@[simp] theorem ev_guardCable_llave66 : guardCable "Llave de paso 6-6" = false := by decide
@[simp] theorem ev_guardCable_bifur : guardCable "Bifurcación Y 6-6-6" = false := by decide
@[simp] theorem ev_guardCable_llave14 : guardCable "Llave de paso 1/4-6" = false := by decide
@[simp] theorem ev_guardCable_regz : guardCable "Regulador ZERICA" = false := by decide
@[simp] theorem ev_guardCable_regt : guardCable "Regulador TALOS" = false := by decide
@[simp] theorem ev_guardCable_regd : guardCable "Regulador/Manómetro" = false := by decide
@[simp] theorem ev_guardCable_con18 : guardCable "Conector 1/8-8" = false := by decide
@[simp] theorem ev_guardCable_bandeja : guardCable "Bandeja de Goteo (incluida con Lago)" = false := by decide
@[simp] theorem ev_guardCable_plat : guardCable "Tapas Cántaro Plateadas" = false := by decide
@[simp] theorem ev_guardCable_negra : guardCable "Tapas Cántaro Negras" = false := by decide
@[simp] theorem ev_guardConector86_cable : guardConector86 "Cable Interlock 220V" = false := by decide
@[simp] theorem ev_guardConector86_con86 : guardConector86 "Conector Recto 8-6" = true := by decide
@[simp] theorem ev_guardConector86_llave66 : guardConector86 "Llave de paso 6-6" = false := by decide
@[simp] theorem ev_guardConector86_bifur : guardConector86 "Bifurcación Y 6-6-6" = false := by decide
@[simp] theorem ev_guardConector86_llave14 : guardConector86 "Llave de paso 1/4-6" = false := by decide
@[simp] theorem ev_guardConector86_regz : guardConector86 "Regulador ZERICA" = false := by decide
@[simp] theorem ev_guardConector86_regt : guardConector86 "Regulador TALOS" = false := by decide
@[simp] theorem ev_guardConector86_regd : guardConector86 "Regulador/Manómetro" = false := by decide
@[simp] theorem ev_guardConector86_con18 : guardConector86 "Conector 1/8-8" = false := by decide
@[simp] theorem ev_guardConector86_bandeja : guardConector86 "Bandeja de Goteo (incluida con Lago)" = false := by decide
@[simp] theorem ev_guardConector86_plat : guardConector86 "Tapas Cántaro Plateadas" = false := by decide
@[simp] theorem ev_guardConector86_negra : guardConector86 "Tapas Cántaro Negras" = false := by decide
@[simp] theorem ev_guardLlave66_cable : guardLlave66 "Cable Interlock 220V" = false := by decide
@[simp] theorem ev_guardLlave66_con86 : guardLlave66 "Conector Recto 8-6" = false := by decide
@[simp] theorem ev_guardLlave66_llave66 : guardLlave66 "Llave de paso 6-6" = true := by decide
@[simp] theorem ev_guardLlave66_bifur : guardLlave66 "Bifurcación Y 6-6-6" = false := by decide
@[simp] theorem ev_guardLlave66_llave14 : guardLlave66 "Llave de paso 1/4-6" = false := by decide
@[simp] theorem ev_guardLlave66_regz : guardLlave66 "Regulador ZERICA" = false := by decide
@[simp] theorem ev_guardLlave66_regt : guardLlave66 "Regulador TALOS" = false := by decide
@[simp] theorem ev_guardLlave66_regd : guardLlave66 "Regulador/Manómetro" = false := by decide
@[simp] theorem ev_guardLlave66_con18 : guardLlave66 "Conector 1/8-8" = false := by decide
@[simp] theorem ev_guardLlave66_bandeja : guardLlave66 "Bandeja de Goteo (incluida con Lago)" = false := by decide
@[simp] theorem ev_guardLlave66_plat : guardLlave66 "Tapas Cántaro Plateadas" = false := by decide
@[simp] theorem ev_guardLlave66_negra : guardLlave66 "Tapas Cántaro Negras" = false := by decide
@[simp] theorem ev_guardBifurcacion_cable : guardBifurcacion "Cable Interlock 220V" = false := by decide
@[simp] theorem ev_guardBifurcacion_con86 : guardBifurcacion "Conector Recto 8-6" = false := by decide
@[simp] theorem ev_guardBifurcacion_llave66 : guardBifurcacion "Llave de paso 6-6" = false := by decide
@[simp] theorem ev_guardBifurcacion_bifur : guardBifurcacion "Bifurcación Y 6-6-6" = true := by decide
@[simp] theorem ev_guardBifurcacion_llave14 : guardBifurcacion "Llave de paso 1/4-6" = false := by decide
@[simp] theorem ev_guardBifurcacion_regz : guardBifurcacion "Regulador ZERICA" = false := by decide
@[simp] theorem ev_guardBifurcacion_regt : guardBifurcacion "Regulador TALOS" = false := by decide
@[simp] theorem ev_guardBifurcacion_regd : guardBifurcacion "Regulador/Manómetro" = false := by decide
@[simp] theorem ev_guardBifurcacion_con18 : guardBifurcacion "Conector 1/8-8" = false := by decide
@[simp] theorem ev_guardBifurcacion_bandeja : guardBifurcacion "Bandeja de Goteo (incluida con Lago)" = false := by decide
@[simp] theorem ev_guardBifurcacion_plat : guardBifurcacion "Tapas Cántaro Plateadas" = false := by decide
@[simp] theorem ev_guardBifurcacion_negra : guardBifurcacion "Tapas Cántaro Negras" = false := by decide
@[simp] theorem ev_guardLlave14_cable : guardLlave14 "Cable Interlock 220V" = false := by decide
@[simp] theorem ev_guardLlave14_con86 : guardLlave14 "Conector Recto 8-6" = false := by decide
@[simp] theorem ev_guardLlave14_llave66 : guardLlave14 "Llave de paso 6-6" = false := by decide
@[simp] theorem ev_guardLlave14_bifur : guardLlave14 "Bifurcación Y 6-6-6" = false := by decide
@[simp] theorem ev_guardLlave14_llave14 : guardLlave14 "Llave de paso 1/4-6" = true := by decide
@[simp] theorem ev_guardLlave14_regz : guardLlave14 "Regulador ZERICA" = false := by decide
@[simp] theorem ev_guardLlave14_regt : guardLlave14 "Regulador TALOS" = false := by decide
@[simp] theorem ev_guardLlave14_regd : guardLlave14 "Regulador/Manómetro" = false := by decide
@[simp] theorem ev_guardLlave14_con18 : guardLlave14 "Conector 1/8-8" = false := by decide
@[simp] theorem ev_guardLlave14_bandeja : guardLlave14 "Bandeja de Goteo (incluida con Lago)" = false := by decide
@[simp] theorem ev_guardLlave14_plat : guardLlave14 "Tapas Cántaro Plateadas" = false := by decide
@[simp] theorem ev_guardLlave14_negra : guardLlave14 "Tapas Cántaro Negras" = false := by decide
@[simp] theorem ev_guardOneEighth_cable : guardOneEighth "Cable Interlock 220V" = false := by decide
@[simp] theorem ev_guardOneEighth_con86 : guardOneEighth "Conector Recto 8-6" = false := by decide
@[simp] theorem ev_guardOneEighth_llave66 : guardOneEighth "Llave de paso 6-6" = false := by decide
@[simp] theorem ev_guardOneEighth_bifur : guardOneEighth "Bifurcación Y 6-6-6" = false := by decide
@[simp] theorem ev_guardOneEighth_llave14 : guardOneEighth "Llave de paso 1/4-6" = false := by decide
@[simp] theorem ev_guardOneEighth_regz : guardOneEighth "Regulador ZERICA" = false := by decide
@[simp] theorem ev_guardOneEighth_regt : guardOneEighth "Regulador TALOS" = false := by decide
@[simp] theorem ev_guardOneEighth_regd : guardOneEighth "Regulador/Manómetro" = false := by decide
@[simp] theorem ev_guardOneEighth_con18 : guardOneEighth "Conector 1/8-8" = true := by decide
@[simp] theorem ev_guardOneEighth_bandeja : guardOneEighth "Bandeja de Goteo (incluida con Lago)" = false := by decide
@[simp] theorem ev_guardOneEighth_plat : guardOneEighth "Tapas Cántaro Plateadas" = false := by decide
@[simp] theorem ev_guardOneEighth_negra : guardOneEighth "Tapas Cántaro Negras" = false := by decide
@[simp] theorem ev_guardBandeja_cable : guardBandeja "Cable Interlock 220V" = false := by decide
@[simp] theorem ev_guardBandeja_con86 : guardBandeja "Conector Recto 8-6" = false := by decide
@[simp] theorem ev_guardBandeja_llave66 : guardBandeja "Llave de paso 6-6" = false := by decide
@[simp] theorem ev_guardBandeja_bifur : guardBandeja "Bifurcación Y 6-6-6" = false := by decide
@[simp] theorem ev_guardBandeja_llave14 : guardBandeja "Llave de paso 1/4-6" = false := by decide
@[simp] theorem ev_guardBandeja_regz : guardBandeja "Regulador ZERICA" = false := by decide
@[simp] theorem ev_guardBandeja_regt : guardBandeja "Regulador TALOS" = false := by decide
@[simp] theorem ev_guardBandeja_regd : guardBandeja "Regulador/Manómetro" = false := by decide
@[simp] theorem ev_guardBandeja_con18 : guardBandeja "Conector 1/8-8" = false := by decide
@[simp] theorem ev_guardBandeja_bandeja : guardBandeja "Bandeja de Goteo (incluida con Lago)" = true := by decide
@[simp] theorem ev_guardBandeja_plat : guardBandeja "Tapas Cántaro Plateadas" = false := by decide
@[simp] theorem ev_guardBandeja_negra : guardBandeja "Tapas Cántaro Negras" = false := by decide
@[simp] theorem ev_guardPlateada_cable : guardPlateada "Cable Interlock 220V" = false := by decide
@[simp] theorem ev_guardPlateada_con86 : guardPlateada "Conector Recto 8-6" = false := by decide
@[simp] theorem ev_guardPlateada_llave66 : guardPlateada "Llave de paso 6-6" = false := by decide
@[simp] theorem ev_guardPlateada_bifur : guardPlateada "Bifurcación Y 6-6-6" = false := by decide
@[simp] theorem ev_guardPlateada_llave14 : guardPlateada "Llave de paso 1/4-6" = false := by decide
@[simp] theorem ev_guardPlateada_regz : guardPlateada "Regulador ZERICA" = false := by decide
@[simp] theorem ev_guardPlateada_regt : guardPlateada "Regulador TALOS" = false := by decide
@[simp] theorem ev_guardPlateada_regd : guardPlateada "Regulador/Manómetro" = false := by decide
@[simp] theorem ev_guardPlateada_con18 : guardPlateada "Conector 1/8-8" = false := by decide
@[simp] theorem ev_guardPlateada_bandeja : guardPlateada "Bandeja de Goteo (incluida con Lago)" = false := by decide
@[simp] theorem ev_guardPlateada_plat : guardPlateada "Tapas Cántaro Plateadas" = true := by decide
@[simp] theorem ev_guardPlateada_negra : guardPlateada "Tapas Cántaro Negras" = false := by decide
@[simp] theorem ev_guardNegra_cable : guardNegra "Cable Interlock 220V" = false := by decide
@[simp] theorem ev_guardNegra_con86 : guardNegra "Conector Recto 8-6" = false := by decide
@[simp] theorem ev_guardNegra_llave66 : guardNegra "Llave de paso 6-6" = false := by decide
@[simp] theorem ev_guardNegra_bifur : guardNegra "Bifurcación Y 6-6-6" = false := by decide
@[simp] theorem ev_guardNegra_llave14 : guardNegra "Llave de paso 1/4-6" = false := by decide
@[simp] theorem ev_guardNegra_regz : guardNegra "Regulador ZERICA" = false := by decide
@[simp] theorem ev_guardNegra_regt : guardNegra "Regulador TALOS" = false := by decide
@[simp] theorem ev_guardNegra_regd : guardNegra "Regulador/Manómetro" = false := by decide
@[simp] theorem ev_guardNegra_con18 : guardNegra "Conector 1/8-8" = false := by decide
@[simp] theorem ev_guardNegra_bandeja : guardNegra "Bandeja de Goteo (incluida con Lago)" = false := by decide
@[simp] theorem ev_guardNegra_plat : guardNegra "Tapas Cántaro Plateadas" = false := by decide
@[simp] theorem ev_guardNegra_negra : guardNegra "Tapas Cántaro Negras" = true := by decide


end SynthesisEvaluation

section SecondRun

theorem anyProduct_nil (p : String → Bool) : anyProduct p [] = false := rfl

theorem anyProduct_singleton (p : String → Bool) (x : DeliveryNoteItem) :
    anyProduct p [x] = p x.product := by
  simp [anyProduct]

theorem anyProduct_ite (p : String → Bool) (c : Bool) (l₁ l₂ : List DeliveryNoteItem) :
    anyProduct p (if c then l₁ else l₂) = (if c then anyProduct p l₁ else anyProduct p l₂) := by
  cases c <;> simp

theorem anyProduct_ite_prop (p : String → Bool) (c : Prop) [Decidable c]
    (l₁ l₂ : List DeliveryNoteItem) :
    anyProduct p (if c then l₁ else l₂) = (if c then anyProduct p l₁ else anyProduct p l₂) := by
  split_ifs <;> rfl

@[simp] theorem bool_ite_false_right (c : Prop) [Decidable c] (b : Bool) :
    (if c then b else false) = (decide c && b) := by
  split_ifs with h <;> simp [h]

theorem rule4_fst (f : DetectedFlags) :
    (rule4 f).1 =
      (if f.has_tubo_co2 && !f.has_regulator then
        (if f.has_equipo_lago then [reguladorZericaItem]
         else if f.has_equipo_rio then [reguladorTalosItem]
         else [reguladorDefaultItem])
       else []) := by
  rw [rule4]
  split_ifs <;> rfl

theorem rule4_snd (f : DetectedFlags) :
    (rule4 f).2 = (f.has_regulator || f.has_tubo_co2) := by
  rw [rule4]
  split_ifs with h h1 h2 <;> simp_all

@[simp] theorem bool_taut_main (e a : Bool) : (e && !(a || (e && !a))) = false := by
  cases e <;> cases a <;> rfl

@[simp] theorem bool_taut_or (e a : Bool) : (e && !(a || e)) = false := by
  cases e <;> cases a <;> rfl

@[simp] theorem bool_ite_id (c : Bool) : (if c then true else false) = c := by
  cases c <;> rfl

theorem bool_absorb_and (a b : Bool) : (a || (a && b)) = a := by
  cases a <;> cases b <;> rfl

theorem bool_or_and_not (a b : Bool) : (a || (b && !a)) = (a || b) := by
  cases a <;> cases b <;> rfl

theorem synth_any_predLago (f : DetectedFlags) (A : List DeliveryNoteItem) :
    anyProduct predLago (synthesize f A) =
      (f.has_equipo_lago && !anyProduct guardBandeja A) := by
  simp only [synthesize, rule1, rule2, rule3, rule5, rule6, rule7, rule4_fst, rule4_snd,
    anyProduct_append, anyProduct_ite_sing, anyProduct_ite, anyProduct_ite_prop, anyProduct_singleton, anyProduct_nil,
    cableInterlockItem, conectorRecto86Item, llave66Item, bifurcacionItem, llave14Item,
    reguladorZericaItem, reguladorTalosItem, reguladorDefaultItem, conector18Item, bandejaItem,
    tapasPlateadasItem, tapasNegrasItem]
  simp

theorem synth_any_predRio (f : DetectedFlags) (A : List DeliveryNoteItem) :
    anyProduct predRio (synthesize f A) = false := by
  simp only [synthesize, rule1, rule2, rule3, rule5, rule6, rule7, rule4_fst, rule4_snd,
    anyProduct_append, anyProduct_ite_sing, anyProduct_ite, anyProduct_ite_prop, anyProduct_singleton, anyProduct_nil,
    cableInterlockItem, conectorRecto86Item, llave66Item, bifurcacionItem, llave14Item,
    reguladorZericaItem, reguladorTalosItem, reguladorDefaultItem, conector18Item, bandejaItem,
    tapasPlateadasItem, tapasNegrasItem]
  simp

theorem synth_any_predRomi (f : DetectedFlags) (A : List DeliveryNoteItem) :
    anyProduct predRomi (synthesize f A) = false := by
  simp only [synthesize, rule1, rule2, rule3, rule5, rule6, rule7, rule4_fst, rule4_snd,
    anyProduct_append, anyProduct_ite_sing, anyProduct_ite, anyProduct_ite_prop, anyProduct_singleton, anyProduct_nil,
    cableInterlockItem, conectorRecto86Item, llave66Item, bifurcacionItem, llave14Item,
    reguladorZericaItem, reguladorTalosItem, reguladorDefaultItem, conector18Item, bandejaItem,
    tapasPlateadasItem, tapasNegrasItem]
  simp

theorem synth_any_predTanque (f : DetectedFlags) (A : List DeliveryNoteItem) :
    anyProduct predTanque (synthesize f A) = false := by
  simp only [synthesize, rule1, rule2, rule3, rule5, rule6, rule7, rule4_fst, rule4_snd,
    anyProduct_append, anyProduct_ite_sing, anyProduct_ite, anyProduct_ite_prop, anyProduct_singleton, anyProduct_nil,
    cableInterlockItem, conectorRecto86Item, llave66Item, bifurcacionItem, llave14Item,
    reguladorZericaItem, reguladorTalosItem, reguladorDefaultItem, conector18Item, bandejaItem,
    tapasPlateadasItem, tapasNegrasItem]
  simp

theorem synth_any_predTubo (f : DetectedFlags) (A : List DeliveryNoteItem) :
    anyProduct predTubo (synthesize f A) = false := by
  simp only [synthesize, rule1, rule2, rule3, rule5, rule6, rule7, rule4_fst, rule4_snd,
    anyProduct_append, anyProduct_ite_sing, anyProduct_ite, anyProduct_ite_prop, anyProduct_singleton, anyProduct_nil,
    cableInterlockItem, conectorRecto86Item, llave66Item, bifurcacionItem, llave14Item,
    reguladorZericaItem, reguladorTalosItem, reguladorDefaultItem, conector18Item, bandejaItem,
    tapasPlateadasItem, tapasNegrasItem]
  simp

theorem synth_any_predReg (f : DetectedFlags) (A : List DeliveryNoteItem) :
    anyProduct predReg (synthesize f A) = (f.has_tubo_co2 && !f.has_regulator) := by
  simp only [synthesize, rule1, rule2, rule3, rule5, rule6, rule7, rule4_fst, rule4_snd,
    anyProduct_append, anyProduct_ite_sing, anyProduct_ite, anyProduct_ite_prop, anyProduct_singleton, anyProduct_nil,
    cableInterlockItem, conectorRecto86Item, llave66Item, bifurcacionItem, llave14Item,
    reguladorZericaItem, reguladorTalosItem, reguladorDefaultItem, conector18Item, bandejaItem,
    tapasPlateadasItem, tapasNegrasItem]
  simp

theorem synth_any_guardCable (f : DetectedFlags) (A : List DeliveryNoteItem) :
    anyProduct guardCable (synthesize f A) =
      ((f.has_equipo_lago || f.has_equipo_rio) && !anyProduct guardCable A) := by
  simp only [synthesize, rule1, rule2, rule3, rule5, rule6, rule7, rule4_fst, rule4_snd,
    anyProduct_append, anyProduct_ite_sing, anyProduct_ite, anyProduct_ite_prop, anyProduct_singleton, anyProduct_nil,
    cableInterlockItem, conectorRecto86Item, llave66Item, bifurcacionItem, llave14Item,
    reguladorZericaItem, reguladorTalosItem, reguladorDefaultItem, conector18Item, bandejaItem,
    tapasPlateadasItem, tapasNegrasItem]
  simp

theorem synth_any_guardConector86 (f : DetectedFlags) (A : List DeliveryNoteItem) :
    anyProduct guardConector86 (synthesize f A) =
      (f.has_romi_plus && !anyProduct guardConector86 A) := by
  simp only [synthesize, rule1, rule2, rule3, rule5, rule6, rule7, rule4_fst, rule4_snd,
    anyProduct_append, anyProduct_ite_sing, anyProduct_ite, anyProduct_ite_prop, anyProduct_singleton, anyProduct_nil,
    cableInterlockItem, conectorRecto86Item, llave66Item, bifurcacionItem, llave14Item,
    reguladorZericaItem, reguladorTalosItem, reguladorDefaultItem, conector18Item, bandejaItem,
    tapasPlateadasItem, tapasNegrasItem]
  simp

theorem synth_any_guardLlave66 (f : DetectedFlags) (A : List DeliveryNoteItem) :
    anyProduct guardLlave66 (synthesize f A) =
      (f.has_romi_plus && !anyProduct guardLlave66 A) := by
  simp only [synthesize, rule1, rule2, rule3, rule5, rule6, rule7, rule4_fst, rule4_snd,
    anyProduct_append, anyProduct_ite_sing, anyProduct_ite, anyProduct_ite_prop, anyProduct_singleton, anyProduct_nil,
    cableInterlockItem, conectorRecto86Item, llave66Item, bifurcacionItem, llave14Item,
    reguladorZericaItem, reguladorTalosItem, reguladorDefaultItem, conector18Item, bandejaItem,
    tapasPlateadasItem, tapasNegrasItem]
  simp

theorem synth_any_guardBifurcacion (f : DetectedFlags) (A : List DeliveryNoteItem) :
    anyProduct guardBifurcacion (synthesize f A) =
      (f.has_tanque_hidro && !anyProduct guardBifurcacion A) := by
  simp only [synthesize, rule1, rule2, rule3, rule5, rule6, rule7, rule4_fst, rule4_snd,
    anyProduct_append, anyProduct_ite_sing, anyProduct_ite, anyProduct_ite_prop, anyProduct_singleton, anyProduct_nil,
    cableInterlockItem, conectorRecto86Item, llave66Item, bifurcacionItem, llave14Item,
    reguladorZericaItem, reguladorTalosItem, reguladorDefaultItem, conector18Item, bandejaItem,
    tapasPlateadasItem, tapasNegrasItem]
  simp

theorem synth_any_guardLlave14 (f : DetectedFlags) (A : List DeliveryNoteItem) :
    anyProduct guardLlave14 (synthesize f A) =
      (f.has_tanque_hidro && !anyProduct guardLlave14 A) := by
  simp only [synthesize, rule1, rule2, rule3, rule5, rule6, rule7, rule4_fst, rule4_snd,
    anyProduct_append, anyProduct_ite_sing, anyProduct_ite, anyProduct_ite_prop, anyProduct_singleton, anyProduct_nil,
    cableInterlockItem, conectorRecto86Item, llave66Item, bifurcacionItem, llave14Item,
    reguladorZericaItem, reguladorTalosItem, reguladorDefaultItem, conector18Item, bandejaItem,
    tapasPlateadasItem, tapasNegrasItem]
  simp

theorem synth_any_guardOneEighth (f : DetectedFlags) (A : List DeliveryNoteItem) :
    anyProduct guardOneEighth (synthesize f A) =
      ((f.has_regulator || f.has_tubo_co2) && !anyProduct guardOneEighth A) := by
  simp only [synthesize, rule1, rule2, rule3, rule5, rule6, rule7, rule4_fst, rule4_snd,
    anyProduct_append, anyProduct_ite_sing, anyProduct_ite, anyProduct_ite_prop, anyProduct_singleton, anyProduct_nil,
    cableInterlockItem, conectorRecto86Item, llave66Item, bifurcacionItem, llave14Item,
    reguladorZericaItem, reguladorTalosItem, reguladorDefaultItem, conector18Item, bandejaItem,
    tapasPlateadasItem, tapasNegrasItem]
  simp

theorem synth_any_guardBandeja (f : DetectedFlags) (A : List DeliveryNoteItem) :
    anyProduct guardBandeja (synthesize f A) =
      (f.has_equipo_lago && !anyProduct guardBandeja A) := by
  simp only [synthesize, rule1, rule2, rule3, rule5, rule6, rule7, rule4_fst, rule4_snd,
    anyProduct_append, anyProduct_ite_sing, anyProduct_ite, anyProduct_ite_prop, anyProduct_singleton, anyProduct_nil,
    cableInterlockItem, conectorRecto86Item, llave66Item, bifurcacionItem, llave14Item,
    reguladorZericaItem, reguladorTalosItem, reguladorDefaultItem, conector18Item, bandejaItem,
    tapasPlateadasItem, tapasNegrasItem]
  simp

theorem synth_any_guardPlateada (f : DetectedFlags) (A : List DeliveryNoteItem) :
    anyProduct guardPlateada (synthesize f A) =
      (decide (0 < f.cantaro_500_qty) && !anyProduct guardPlateada A) := by
  simp only [synthesize, rule1, rule2, rule3, rule5, rule6, rule7, rule4_fst, rule4_snd,
    anyProduct_append, anyProduct_ite_sing, anyProduct_ite, anyProduct_ite_prop, anyProduct_singleton, anyProduct_nil,
    cableInterlockItem, conectorRecto86Item, llave66Item, bifurcacionItem, llave14Item,
    reguladorZericaItem, reguladorTalosItem, reguladorDefaultItem, conector18Item, bandejaItem,
    tapasPlateadasItem, tapasNegrasItem]
  simp

theorem synth_any_guardNegra (f : DetectedFlags) (A : List DeliveryNoteItem) :
    anyProduct guardNegra (synthesize f A) =
      (decide (0 < f.cantaro_500_qty) && !anyProduct guardNegra A) := by
  simp only [synthesize, rule1, rule2, rule3, rule5, rule6, rule7, rule4_fst, rule4_snd,
    anyProduct_append, anyProduct_ite_sing, anyProduct_ite, anyProduct_ite_prop, anyProduct_singleton, anyProduct_nil,
    cableInterlockItem, conectorRecto86Item, llave66Item, bifurcacionItem, llave14Item,
    reguladorZericaItem, reguladorTalosItem, reguladorDefaultItem, conector18Item, bandejaItem,
    tapasPlateadasItem, tapasNegrasItem]
  simp

theorem cantaroFold_ite (q : Int) (c : Prop) [Decidable c] (l₁ l₂ : List DeliveryNoteItem) :
    cantaroFold q (if c then l₁ else l₂) = (if c then cantaroFold q l₁ else cantaroFold q l₂) := by
  split_ifs <;> rfl

theorem cantaroFold_sing (q : Int) (x : DeliveryNoteItem) :
    cantaroFold q [x] = (if predCantaro x.product then x.quantity else q) := rfl

theorem cantaroFold_nil (q : Int) : cantaroFold q [] = q := rfl

theorem cantaroFold_synthesize (f : DetectedFlags) (A : List DeliveryNoteItem) (q : Int) :
    cantaroFold q (synthesize f A) = q := by
  simp only [synthesize, rule1, rule2, rule3, rule5, rule6, rule7, rule4_fst,
    cantaroFold_append, cantaroFold_ite, cantaroFold_sing, cantaroFold_nil,
    cableInterlockItem, conectorRecto86Item, llave66Item, bifurcacionItem, llave14Item,
    reguladorZericaItem, reguladorTalosItem, reguladorDefaultItem, conector18Item, bandejaItem,
    tapasPlateadasItem, tapasNegrasItem]
  simp

theorem detect_after (A : List DeliveryNoteItem) :
    detect (A ++ synthesize (detect A) A) =
      ⟨anyProduct predLago A, anyProduct predRio A, anyProduct predRomi A,
       anyProduct predTanque A, anyProduct predTubo A,
       anyProduct predReg A || anyProduct predTubo A, cantaroFold 0 A⟩ := by
  rw [detect_eq]
  simp only [anyProduct_append, cantaroFold_append, synth_any_predLago, synth_any_predRio,
    synth_any_predRomi, synth_any_predTanque, synth_any_predTubo, synth_any_predReg,
    cantaroFold_synthesize, detect_eq]
  simp [bool_absorb_and, bool_or_and_not]

theorem synthesize_nil_after (A N : List DeliveryNoteItem) (L R Ro Ta Tu Re : Bool) (Q : Int)
    (hca : anyProduct guardCable N = ((L || R) && !anyProduct guardCable A))
    (hc86 : anyProduct guardConector86 N = (Ro && !anyProduct guardConector86 A))
    (hc66 : anyProduct guardLlave66 N = (Ro && !anyProduct guardLlave66 A))
    (hcbi : anyProduct guardBifurcacion N = (Ta && !anyProduct guardBifurcacion A))
    (hc14 : anyProduct guardLlave14 N = (Ta && !anyProduct guardLlave14 A))
    (hc18 : anyProduct guardOneEighth N = ((Re || Tu) && !anyProduct guardOneEighth A))
    (hcba : anyProduct guardBandeja N = (L && !anyProduct guardBandeja A))
    (hcpl : anyProduct guardPlateada N = (decide (0 < Q) && !anyProduct guardPlateada A))
    (hcng : anyProduct guardNegra N = (decide (0 < Q) && !anyProduct guardNegra A)) :
    synthesize ⟨L, R, Ro, Ta, Tu, Re || Tu, Q⟩ (A ++ N) = [] := by
  have k1 : ((L || R) && !anyProduct guardCable (A ++ N)) = false := by
    rw [anyProduct_append, hca]; exact bool_taut_main _ _
  have k2a : (Ro && !anyProduct guardConector86 (A ++ N)) = false := by
    rw [anyProduct_append, hc86]; exact bool_taut_main _ _
  have k2b : (Ro && !anyProduct guardLlave66 (A ++ N)) = false := by
    rw [anyProduct_append, hc66]; exact bool_taut_main _ _
  have k3a : (Ta && !anyProduct guardBifurcacion (A ++ N)) = false := by
    rw [anyProduct_append, hcbi]; exact bool_taut_main _ _
  have k3b : (Ta && !anyProduct guardLlave14 (A ++ N)) = false := by
    rw [anyProduct_append, hc14]; exact bool_taut_main _ _
  have k6 : (L && !anyProduct guardBandeja (A ++ N)) = false := by
    rw [anyProduct_append, hcba]; exact bool_taut_main _ _
  have e1 : rule1 (⟨L, R, Ro, Ta, Tu, Re || Tu, Q⟩ : DetectedFlags) (A ++ N) = [] := by
    rw [rule1]; dsimp only; rw [k1]; rfl
  have e2 : rule2 (⟨L, R, Ro, Ta, Tu, Re || Tu, Q⟩ : DetectedFlags) (A ++ N) = [] := by
    rw [rule2]; dsimp only; rw [k2a, k2b]; rfl
  have e3 : rule3 (⟨L, R, Ro, Ta, Tu, Re || Tu, Q⟩ : DetectedFlags) (A ++ N) = [] := by
    rw [rule3]; dsimp only; rw [k3a, k3b]; rfl
  have e4 : (rule4 (⟨L, R, Ro, Ta, Tu, Re || Tu, Q⟩ : DetectedFlags)).1 = [] := by
    rw [rule4_fst]; dsimp only; rw [bool_taut_or Tu Re]; rfl
  have k4snd : (rule4 (⟨L, R, Ro, Ta, Tu, Re || Tu, Q⟩ : DetectedFlags)).2 = (Re || Tu) := by
    rw [rule4_snd]; dsimp only; cases Re <;> cases Tu <;> rfl
  have e5 : rule5 (rule4 (⟨L, R, Ro, Ta, Tu, Re || Tu, Q⟩ : DetectedFlags)).2 (A ++ N) [] = [] := by
    rw [rule5, k4snd, anyProduct_append, hc18, anyProduct_nil]
    cases Re <;> cases Tu <;> cases ha : anyProduct guardOneEighth A <;> rfl
  have e6 : rule6 (⟨L, R, Ro, Ta, Tu, Re || Tu, Q⟩ : DetectedFlags) (A ++ N) = [] := by
    rw [rule6]; dsimp only; rw [k6]; rfl
  have e7 : rule7 Q (A ++ N) = [] := by
    by_cases hq : 0 < Q
    · have hpl : anyProduct guardPlateada (A ++ N) = true := by
        rw [anyProduct_append, hcpl]; simp [hq]
      have hng : anyProduct guardNegra (A ++ N) = true := by
        rw [anyProduct_append, hcng]; simp [hq]
      rw [rule7, if_pos hq, hpl, hng]
      rfl
    · rw [rule7, if_neg hq]
  simp only [synthesize, e1, e2, e3, e4, e6, e7, List.nil_append, List.append_nil]
  exact e5

theorem synthesize_after (A : List DeliveryNoteItem) :
    synthesize (detect (A ++ synthesize (detect A) A)) (A ++ synthesize (detect A) A) = [] := by
  rw [detect_after]
  exact synthesize_nil_after A (synthesize (detect A) A)
    (anyProduct predLago A) (anyProduct predRio A) (anyProduct predRomi A)
    (anyProduct predTanque A) (anyProduct predTubo A) (anyProduct predReg A) (cantaroFold 0 A)
    (by rw [synth_any_guardCable, detect_eq])
    (by rw [synth_any_guardConector86, detect_eq])
    (by rw [synth_any_guardLlave66, detect_eq])
    (by rw [synth_any_guardBifurcacion, detect_eq])
    (by rw [synth_any_guardLlave14, detect_eq])
    (by rw [synth_any_guardOneEighth, detect_eq])
    (by rw [synth_any_guardBandeja, detect_eq])
    (by rw [synth_any_guardPlateada, detect_eq])
    (by rw [synth_any_guardNegra, detect_eq])

theorem map_ite (g : DeliveryNoteItem → DeliveryNoteItem) (c : Prop) [Decidable c]
    (l₁ l₂ : List DeliveryNoteItem) :
    (if c then l₁ else l₂).map g = (if c then l₁.map g else l₂.map g) := by
  split_ifs <;> rfl

@[simp] theorem assignForm_fix_cable : assignForm cableInterlockItem = cableInterlockItem := by
  decide

@[simp] theorem assignForm_fix_con86 : assignForm conectorRecto86Item = conectorRecto86Item := by
  decide

@[simp] theorem assignForm_fix_llave66 : assignForm llave66Item = llave66Item := by
  decide

@[simp] theorem assignForm_fix_bifur : assignForm bifurcacionItem = bifurcacionItem := by
  decide

@[simp] theorem assignForm_fix_llave14 : assignForm llave14Item = llave14Item := by
  decide

@[simp] theorem assignForm_fix_regz : assignForm reguladorZericaItem = reguladorZericaItem := by
  decide

@[simp] theorem assignForm_fix_regt : assignForm reguladorTalosItem = reguladorTalosItem := by
  decide

@[simp] theorem assignForm_fix_regd : assignForm reguladorDefaultItem = reguladorDefaultItem := by
  decide

@[simp] theorem assignForm_fix_con18 : assignForm conector18Item = conector18Item := by
  decide

@[simp] theorem assignForm_fix_bandeja : assignForm bandejaItem = bandejaItem := by
  decide

@[simp] theorem assignForm_fix_plat (q : Int) :
    assignForm (tapasPlateadasItem q) = tapasPlateadasItem q := by
  simp only [assignForm, tapasPlateadasItem]
  rw [show map_to_form_value "Tapas Cántaro Plateadas" =
    "ENVASADO | tapas | Tapas Cantaro Plateadas" from by decide]

@[simp] theorem assignForm_fix_negra (q : Int) :
    assignForm (tapasNegrasItem q) = tapasNegrasItem q := by
  simp only [assignForm, tapasNegrasItem]
  rw [show map_to_form_value "Tapas Cántaro Negras" =
    "ENVASADO | tapas | Tapas Cantaro Negras" from by decide]

theorem map_assignForm_synthesize (f : DetectedFlags) (A : List DeliveryNoteItem) :
    (synthesize f A).map assignForm = synthesize f A := by
  simp only [synthesize, rule1, rule2, rule3, rule5, rule6, rule7, rule4_fst,
    List.map_append, map_ite, List.map_cons, List.map_nil,
    assignForm_fix_cable, assignForm_fix_con86, assignForm_fix_llave66, assignForm_fix_bifur,
    assignForm_fix_llave14, assignForm_fix_regz, assignForm_fix_regt, assignForm_fix_regd,
    assignForm_fix_con18, assignForm_fix_bandeja, assignForm_fix_plat, assignForm_fix_negra]

theorem assignForm_assignForm (it : DeliveryNoteItem) :
    assignForm (assignForm it) = assignForm it := rfl

theorem map_assignForm_idem (l : List DeliveryNoteItem) :
    (l.map assignForm).map assignForm = l.map assignForm := by
  induction l with
  | nil => rfl
  | cons x xs ih => simp [ih, assignForm_assignForm]

end SecondRun

section Claims

/-- C3: `applyBusinessRules` is idempotent: run on its own output it maps no
form value to a different value and synthesizes no further item (every item
appended by rules 1-7 on the first run satisfies the corresponding already
present guard on the second run), so the second output equals the first,
item list included. -/
theorem apply_business_rules_idempotent (note : ParsedDeliveryNote) :
    apply_business_rules (apply_business_rules note) = apply_business_rules note := by
  simp only [apply_business_rules]
  have hmap : ((note.items.map assignForm ++
      synthesize (detect (note.items.map assignForm)) (note.items.map assignForm)).map
        assignForm) =
      note.items.map assignForm ++
        synthesize (detect (note.items.map assignForm)) (note.items.map assignForm) := by
    rw [List.map_append, map_assignForm_idem, map_assignForm_synthesize]
  rw [hmap, synthesize_after, List.append_nil]

/-- C8: for every input `ParsedNote`, the output of `applyBusinessRules`
carries the passthrough metadata fields `rawText`, `clientName`,
`remitoNumber` and `fecha` unchanged from input to output. -/
theorem metadata_passthrough (note : ParsedDeliveryNote) :
    (apply_business_rules note).raw_text = note.raw_text ∧
    (apply_business_rules note).client_name = note.client_name ∧
    (apply_business_rules note).remito_number = note.remito_number ∧
    (apply_business_rules note).fecha = note.fecha :=
  ⟨rfl, rfl, rfl, rfl⟩

/-- C5: on Scenario C, `[{"EQUIPO RIO", 1}, {"TUBO DE CO2 (5KG)", 2}]`, the
engine appends exactly the interlock cable (qty 1), the TALOS-branded
regulator (qty 1 with form value `CO2 | regulador | Talos`, because
`has_equipo_rio` holds and `has_equipo_lago` does not) and the 1/8-8
connector (qty 1, because rule 4 raised the working regulator flag). -/
theorem scenarioC_exact :
    apply_business_rules noteScenarioC =
      ⟨[⟨"EQUIPO RIO", 1, some "EQUIPO | cooler | RIO", false⟩,
        ⟨"TUBO DE CO2 (5KG)", 2, some "TUBO DE CO2 (5KG)", false⟩,
        cableInterlockItem, reguladorTalosItem, conector18Item],
        none, none, none, none⟩ ∧
    reguladorTalosItem.form_value = some "CO2 | regulador | Talos" := by
  constructor
  · decide
  · rfl

/-- C6: on Scenario E, `[{"EQUIPO LAGO",1},{"TUBO DE CO2 (3KG)",1},
{"MANOMETRO",1}]`, the `manometro` match makes `has_regulator` true, so
rule 4 synthesizes no regulator; rule 5 still appends the 1/8-8 connector
(qty 1) since no item carries `1/8`; the remaining additions are the
interlock cable and the included drip tray. -/
theorem scenarioE_exact :
    (detect noteScenarioE.items).has_regulator = true ∧
    apply_business_rules noteScenarioE =
      ⟨[⟨"EQUIPO LAGO", 1, some "EQUIPO | cooler | LAGO", false⟩,
        ⟨"TUBO DE CO2 (3KG)", 1, some "TUBO DE CO2 (3KG)", false⟩,
        ⟨"MANOMETRO", 1, some "CO2 | regulador | Zerica", false⟩,
        cableInterlockItem, conector18Item, bandejaItem],
        none, none, none, none⟩ := by
  constructor
  · decide
  · decide

/-- C9: quantity positivity is not preserved: on a note whose only item is
one Cántaro-500 bottle with quantity 1 (all input quantities are at least
one), the engine synthesizes the silver caps with quantity `1 // 2 = 0`. -/
theorem quantity_positivity_not_preserved :
    (noteCantaroOne.items.all fun it => decide (1 ≤ it.quantity)) = true ∧
    (apply_business_rules noteCantaroOne).items =
      [⟨"BOTELLAS CANTARO 500", 1, some "ENVASADO | botellas | Cantaro 500", false⟩,
       tapasPlateadasItem 0, tapasNegrasItem 1] ∧
    (tapasPlateadasItem 0).quantity = 0 ∧ (tapasPlateadasItem 0).is_auto_added = true := by
  refine ⟨by decide, by decide, rfl, rfl⟩

/-- C1, counterexample: `applyBusinessRules` does mutate the input note as
observed by the caller. Line 37 copies the list but shares the item
objects, and line 51 assigns `form_value` on every shared item, so after
the call on a note whose item still has `form_value = none` the caller
sees a different note. -/
theorem input_note_mutated :
    (apply_business_rules_mut noteLagoOnly).1 ≠ noteLagoOnly := by
  decide

/-- C1, amended: the returned note lists the original items, each with
`form_value` populated by the Mapper, followed by the synthesized items in
that order; however the call is not mutation-free: the input note item
objects also end up with their `form_value` populated in place. -/
theorem apply_business_rules_output_shape (note : ParsedDeliveryNote) :
    (apply_business_rules_mut note).2.items =
      note.items.map (fun it => { it with form_value := some (map_to_form_value it.product) }) ++
        synthesize (detect (note.items.map assignForm)) (note.items.map assignForm) ∧
    (apply_business_rules_mut note).1 =
      { note with
        items := note.items.map
          fun it => { it with form_value := some (map_to_form_value it.product) } } :=
  ⟨rfl, rfl⟩

/-- C2, counterexample: an item whose normalized name contains both
`equipo rio` and `purificador` does set `has_equipo_rio`, and a note with
only such an item does get the rio-triggered interlock cable: the Python
condition on line 55 parses as
`"equipo rio" in n or ("rio" in n and "purificador" not in n)`. -/
theorem rio_flag_counterexample :
    strContains (normalize_product_name "PURIFICADOR EQUIPO RIO") "equipo rio" = true ∧
    strContains (normalize_product_name "PURIFICADOR EQUIPO RIO") "purificador" = true ∧
    (detect notePurificadorRio.items).has_equipo_rio = true ∧
    cableInterlockItem ∈ (apply_business_rules notePurificadorRio).items := by
  refine ⟨by decide, by decide, by decide, by decide⟩

/-- C2, amended: in the detection pass `has_equipo_rio` is set if and only
if some item normalized name contains `equipo rio`, or contains `rio` and
does not contain `purificador`; the `purificador` exclusion applies only to
the bare `rio` disjunct. -/
theorem rio_flag_characterization (items : List DeliveryNoteItem) :
    (detect items).has_equipo_rio = true ↔
      ∃ it ∈ items,
        strContains (normalize_product_name it.product) "equipo rio" = true ∨
          (strContains (normalize_product_name it.product) "rio" = true ∧
            strContains (normalize_product_name it.product) "purificador" = false) := by
  rw [detect_eq]
  simp [anyProduct, List.any_eq_true, predRio]

/-- C7: `mapToFormValue` matches on the lowercased, trimmed input, scans the
catalog in its defined order and returns the value of the first entry whose
key is contained in the normalized input; when no key matches it returns
the original input string unchanged, and in particular the empty string
maps to the empty string. -/
theorem map_to_form_value_spec :
    (∀ s k v pre post, PRODUCT_MAPPING = pre ++ (k, v) :: post →
        (∀ kv ∈ pre, strContains (normalize_product_name s) kv.1 = false) →
        strContains (normalize_product_name s) k = true →
        map_to_form_value s = v) ∧
    (∀ s, (∀ kv ∈ PRODUCT_MAPPING, strContains (normalize_product_name s) kv.1 = false) →
        map_to_form_value s = s) ∧
    map_to_form_value "" = "" := by
  refine ⟨?_, ?_, rfl⟩
  · intro s k v pre post hsplit hpre hk
    rw [map_to_form_value, hsplit, lookupMapping_append_found _ k v pre post hpre hk]
  · intro s h
    rw [map_to_form_value, lookupMapping_none _ _ h]

/-- C7 witness: the first-match branch on a padded, mixed-case Lago name
(split at the head of the catalog) and the fallback branch on an unmapped
name, both obtained from `map_to_form_value_spec` at concrete inputs. -/
theorem map_to_form_value_spec_witness :
    map_to_form_value " Equipo Lago " = "EQUIPO | cooler | LAGO" ∧
    map_to_form_value "producto desconocido" = "producto desconocido" := by
  constructor
  · exact map_to_form_value_spec.1 " Equipo Lago " "equipo lago" "EQUIPO | cooler | LAGO"
      [] (PRODUCT_MAPPING.drop 1) rfl (by simp) (by decide)
  · exact map_to_form_value_spec.2.1 "producto desconocido" (by decide)

/-- C10: every original item keeps, at its original position in the output,
exactly the form value `mapToFormValue(product)` assigned during the
detection pass; no later rule adjusts it. -/
theorem original_item_form_value (note : ParsedDeliveryNote) (i : Nat)
    (h : i < note.items.length) :
    (apply_business_rules note).items[i]? =
      (note.items[i]?).map
        fun it => { it with form_value := some (map_to_form_value it.product) } := by
  show ((note.items.map assignForm) ++
    synthesize (detect (note.items.map assignForm)) (note.items.map assignForm))[i]? = _
  rw [List.getElem?_append_left (by simpa using h), List.getElem?_map]
  rfl

/-- C10 witness: on a note carrying a handwritten `MANOMETRO` together with
Rio equipment, the manometer keeps the ZERICA form value
`CO2 | regulador | Zerica` even though `has_equipo_rio` holds; the brand
choice only affects rule-4 synthesized regulators. -/
theorem original_item_form_value_witness :
    (detect noteManometroRio.items).has_equipo_rio = true ∧
    (apply_business_rules noteManometroRio).items[0]? =
      some ⟨"MANOMETRO", 1, some "CO2 | regulador | Zerica", false⟩ := by
  refine ⟨by decide, ?_⟩
  rw [original_item_form_value noteManometroRio 0 (by decide)]
  decide

theorem synthesize_rule7_fires (f : DetectedFlags) (A : List DeliveryNoteItem)
    (hpos : 0 < f.cantaro_500_qty) (hpl : anyProduct guardPlateada A = false)
    (hng : anyProduct guardNegra A = false) :
    ∃ pre, A ++ synthesize f A = pre ++
      [tapasPlateadasItem (f.cantaro_500_qty.fdiv 2),
       tapasNegrasItem (f.cantaro_500_qty - f.cantaro_500_qty.fdiv 2)] := by
  refine ⟨A ++ (rule1 f A ++ rule2 f A ++ rule3 f A ++ (rule4 f).1 ++
    rule5 (rule4 f).2 A (rule1 f A ++ rule2 f A ++ rule3 f A ++ (rule4 f).1) ++
    rule6 f A), ?_⟩
  unfold synthesize
  rw [rule7, if_pos hpos, hpl, hng]
  simp [List.append_assoc]

/-- C4: whenever the detected Cántaro-500 quantity `q` is positive and no
existing item matches `plateada` or `negra`, the engine appends the silver
caps with quantity `q // 2` and the black caps with quantity `q - q // 2`,
in that order at the end of the output; the two quantities sum to `q` and
the black quantity is at least the silver one. -/
theorem cap_split (note : ParsedDeliveryNote) (q : Int)
    (hq : (detect note.items).cantaro_500_qty = q) (hpos : 0 < q)
    (hplat : anyProduct guardPlateada note.items = false)
    (hneg : anyProduct guardNegra note.items = false) :
    (∃ pre, (apply_business_rules note).items =
        pre ++ [tapasPlateadasItem (q.fdiv 2), tapasNegrasItem (q - q.fdiv 2)]) ∧
      q.fdiv 2 + (q - q.fdiv 2) = q ∧ q.fdiv 2 ≤ q - q.fdiv 2 := by
  have hfd : q.fdiv 2 = q / 2 := Int.fdiv_eq_ediv q (by norm_num)
  refine ⟨?_, by ring, by rw [hfd]; omega⟩
  have hq' : (detect (note.items.map assignForm)).cantaro_500_qty = q := by
    rw [detect_map_assignForm]; exact hq
  have hpl' : anyProduct guardPlateada (note.items.map assignForm) = false := by
    rw [anyProduct_map_assignForm]; exact hplat
  have hng' : anyProduct guardNegra (note.items.map assignForm) = false := by
    rw [anyProduct_map_assignForm]; exact hneg
  have h := synthesize_rule7_fires (detect (note.items.map assignForm))
    (note.items.map assignForm) (by rw [hq']; exact hpos) hpl' hng'
  rw [hq'] at h
  exact h

/-- C4 witness: Scenario D, `[{"BOTELLAS CANTARO 500", 7}]`, yields the
silver caps with quantity 3 and the black caps with quantity 4, summing to
7 with the black share the larger one. -/
theorem cap_split_witness :
    (0 : Int) < 7 ∧
    (∃ pre, (apply_business_rules noteScenarioD).items =
        pre ++ [tapasPlateadasItem 3, tapasNegrasItem 4]) ∧
    (3 : Int) + 4 = 7 ∧ (3 : Int) ≤ 4 := by
  have h := cap_split noteScenarioD 7 (by decide) (by decide) (by decide) (by decide)
  refine ⟨by decide, ?_, by decide, by decide⟩
  have h37 : (7 : Int).fdiv 2 = 3 := by decide
  rw [h37] at h
  norm_num at h
  exact h

end Claims

end MovimientoStock
